import Mathlib

/-!
Verification of the sexagenary (Heavenly-Stem-and-Earthly-Branch) pillar
computation of src/src/calendar/heavenlyStemAndEarthlyBranch.ts.

Conventions of the shallow embedding:
  - JavaScript numbers are modelled as `Int` (all arithmetic in the source is
    exact integer arithmetic: the one division, by 86400000, is exact because
    Date.UTC of a midnight is a whole number of days in milliseconds).
  - The JavaScript remainder operator `%` truncates toward zero, so it is
    modelled by `Int.tmod` (negative for negative left operands).
  - A JavaScript array lookup `a[i]` yields `undefined` when `i` is out of
    range; it is modelled by `jsArrayGet`, which returns `Option String`.
  - `Date.UTC(y, monthIndex, 1) / 86400000` is modelled by `utcEpochDays`:
    the proleptic-Gregorian day count since 1970-01-01, after the ECMAScript
    MakeFullYear rule mapping a year argument in [0, 99] to 1900 + year and
    the MakeDay month rollover.
  - Collaborators that live outside this repository slice (the static tables,
    `fixIndex`, `getTerm`, and the lunar/solar conversion functions) are
    modelled from the spec, as marked on each definition.
-/

/-- Modelled from the spec: the static table of the ten Heavenly Stem symbols
(`HEAVENLY_STEMS` from src/data, which is outside this source slice). -/
def HEAVENLY_STEMS : List String :=
  ["甲", "乙", "丙", "丁", "戊", "己", "庚", "辛", "壬", "癸"]

/-- Modelled from the spec: the static table of the twelve Earthly Branch
symbols (`EARTHLY_BRANCHES` from src/data, outside this source slice). -/
def EARTHLY_BRANCHES : List String :=
  ["子", "丑", "寅", "卯", "辰", "巳", "午", "未", "申", "酉", "戌", "亥"]

/-- JavaScript array indexing `a[i]` for an integer index: a defined entry for
an in-range index, `none` (JavaScript `undefined`) otherwise. -/
def jsArrayGet (l : List String) (i : Int) : Option String :=
  if 0 ≤ i then l.get? i.toNat else none

/-- JavaScript `Array.prototype.indexOf`: the index of the first occurrence,
or -1 when the element is absent. -/
def jsIndexOf (l : List String) (s : String) : Int :=
  if s ∈ l then (l.indexOf s : Int) else -1

/-- Modelled from the spec: `fixIndex` from src/utils (outside this source
slice), per spec section 4.1: true modular reduction of any integer into
[0, modulus - 1]. The source default modulus 12 is written explicitly at
every call site of this embedding. -/
def fixIndex (value : Int) (modulus : Int) : Int :=
  value % modulus

/-- Modelled from the spec: the static `RAT_RULE` stem-to-stem table from
src/data (outside this source slice), per spec sections 4.5 and 8: the
traditional five-rats-escape mapping in which five groups of two day stems
share a starting hour stem, with the defining case mapping 甲 to 甲. -/
def RAT_RULE (s : String) : String :=
  if s = "甲" ∨ s = "己" then "甲"
  else if s = "乙" ∨ s = "庚" then "丙"
  else if s = "丙" ∨ s = "辛" then "戊"
  else if s = "丁" ∨ s = "壬" then "庚"
  else if s = "戊" ∨ s = "癸" then "壬"
  else s

/-- `heavenlyStemAndEarthlyBranchFromOffset` from the source: index the stem
table with `offset % 10` and the branch table with `offset % 12`, where `%`
is the JavaScript truncating remainder. -/
def heavenlyStemAndEarthlyBranchFromOffset (offset : Int) :
    Option String × Option String :=
  (jsArrayGet HEAVENLY_STEMS (Int.tmod offset 10),
   jsArrayGet EARTHLY_BRANCHES (Int.tmod offset 12))

/-- `heavenlyStemAndEarthlyBranchOfYear` from the source: keys
`(year - 3) % 10` and `(year - 3) % 12` (JavaScript truncating remainder),
a key equal to 0 remapped to the modulus, then a 1-based table lookup. -/
def heavenlyStemAndEarthlyBranchOfYear (year : Int) :
    Option String × Option String :=
  let heavenStemKey := Int.tmod (year - 3) 10
  let earthlyBranchKey := Int.tmod (year - 3) 12
  let heavenStemKey2 := if heavenStemKey = 0 then 10 else heavenStemKey
  let earthlyBranchKey2 := if earthlyBranchKey = 0 then 12 else earthlyBranchKey
  (jsArrayGet HEAVENLY_STEMS (heavenStemKey2 - 1),
   jsArrayGet EARTHLY_BRANCHES (earthlyBranchKey2 - 1))

/-- Stated from the words of the spec (section 4.2), for comparison with the
source function: remainders by true (nonnegative) modular reduction, the
1-based convention remapping a remainder of 0 to the modulus, then a 1-based
table lookup. -/
def specYearPillar (year : Int) : Option String × Option String :=
  let stemRem := if (year - 3) % 10 = 0 then 10 else (year - 3) % 10
  let branchRem := if (year - 3) % 12 = 0 then 12 else (year - 3) % 12
  (jsArrayGet HEAVENLY_STEMS (stemRem - 1),
   jsArrayGet EARTHLY_BRANCHES (branchRem - 1))

/-- A solar calendar date, already decomposed into integer components. -/
structure SolarDate where
  year : Int
  month : Int
  day : Int
deriving DecidableEq

/-- Modelled from the spec: `normalizeSolarDateStr` from the conversion
subsystem (outside this source slice), per spec section 6: it decomposes a
solar date into its integer year, month and day components. -/
def normalizeSolarDateStr (date : SolarDate) : Int × Int × Int :=
  (date.year, date.month, date.day)

/-- `heavenlyStemAndEarthlyBranchOfMonth` from the source, parametrized by the
external `getTerm` collaborator (outside this source slice): base offset
`(year - 1900) * 12 + month + 11`, advanced by one when the day is on or
after the first minor solar term of the month. -/
def heavenlyStemAndEarthlyBranchOfMonth (getTerm : Int → Int → Int)
    (date : SolarDate) : Option String × Option String :=
  let (year, month, day) := normalizeSolarDateStr date
  let firstNode := getTerm year (month * 2 - 1)
  let offset := (year - 1900) * 12 + month + 11
  if firstNode ≤ day then heavenlyStemAndEarthlyBranchFromOffset (offset + 1)
  else heavenlyStemAndEarthlyBranchFromOffset offset

/-- ECMAScript MakeFullYear, applied by `Date.UTC` to its year argument: a
year in [0, 99] denotes 1900 + year; any other year denotes itself. -/
def makeFullYear (y : Int) : Int :=
  if 0 ≤ y ∧ y ≤ 99 then 1900 + y else y

/-- Proleptic-Gregorian day count (days since 1970-01-01) of the first day of
month `m` of year `y`, by the standard civil-from-days era decomposition. -/
def daysFromCivilFirst (y m : Int) : Int :=
  let y2 := if m ≤ 2 then y - 1 else y
  let era := y2 / 400
  let yoe := y2 - era * 400
  let mp := if 2 < m then m - 3 else m + 9
  let doy := (153 * mp + 2) / 5
  let doe := yoe * 365 + yoe / 4 - yoe / 100 + doy
  era * 146097 + doe - 719468

/-- Model of `Date.UTC(y, monthIndex, 1, 0, 0, 0, 0) / 86400000`: the day
count since 1970-01-01 of the first of the given month, after the ECMAScript
MakeFullYear rule on the year and the MakeDay rollover on the month index. -/
def utcEpochDays (y monthIndex : Int) : Int :=
  let yr := makeFullYear y
  let ym := yr + monthIndex / 12
  let mn := monthIndex % 12
  daysFromCivilFirst ym (mn + 1)

/-- The integer offset that `heavenlyStemAndEarthlyBranchOfDay` from the
source feeds to `heavenlyStemAndEarthlyBranchFromOffset`:
`dayCyclical + day + dayFix - 1` with `dayCyclical` the calibrated epoch-day
count of the first of the month and `dayFix` the late-Zi correction. -/
def dayCyclicalOffset (date : SolarDate) (timeIndex : Int) : Int :=
  let (year, month, day) := normalizeSolarDateStr date
  let dayFix := if timeIndex = 12 then 1 else 0
  let dayCyclical := utcEpochDays year (month - 1) + 25567 + 10
  dayCyclical + day + dayFix - 1

/-- `heavenlyStemAndEarthlyBranchOfDay` from the source. -/
def heavenlyStemAndEarthlyBranchOfDay (date : SolarDate) (timeIndex : Int) :
    Option String × Option String :=
  heavenlyStemAndEarthlyBranchFromOffset (dayCyclicalOffset date timeIndex)

/-- `heavenlyStemAndEarthlyBranchOfTime` from the source: the start stem from
the rat rule, advanced by `fixIndex(timeIndex)` (source default modulus 12)
and reduced modulo 10 for the stem; `fixIndex(timeIndex)` for the branch. -/
def heavenlyStemAndEarthlyBranchOfTime (timeIndex : Int)
    (heavenlyStemOfDay : String) : Option String × Option String :=
  let startHeavenlyStem := RAT_RULE heavenlyStemOfDay
  let heavenlyStem := jsArrayGet HEAVENLY_STEMS
    (fixIndex (jsIndexOf HEAVENLY_STEMS startHeavenlyStem + fixIndex timeIndex 12) 10)
  let earthlyBranch := jsArrayGet EARTHLY_BRANCHES (fixIndex timeIndex 12)
  (heavenlyStem, earthlyBranch)

/-- Modelled from the spec: the bundle of external conversion collaborators
(spec section 6), all outside this source slice. `lunar2solar` is the
composite of the source's `lunar2solar` call, `toString`, and `new Date`,
yielding the solar date triple directly; `solar2lunar` yields the lunar
year; `parseSolarDate` is `new Date` applied to a solar date string. -/
structure Collaborators where
  getTerm : Int → Int → Int
  normalizeLunarDateStr : String → Int × Int × Int
  lunar2solar : String → Bool → SolarDate
  solar2lunar : String → Int
  parseSolarDate : String → SolarDate

/-- JavaScript array join with the empty separator, applied to the pair
`[stem, branch]`: an undefined component joins as the empty string. -/
def joinPillar (p : Option String × Option String) : String :=
  (match p.1 with
   | some s => s
   | none => "") ++
  (match p.2 with
   | some s => s
   | none => "")

/-- The stem passed on to the hour rule: `daily[0]` in the source; JavaScript
would pass `undefined` when the lookup was out of range. -/
def stemOrUndefined (o : Option String) : String :=
  match o with
  | some s => s
  | none => "undefined"

/-- The result record of the two aggregate entry points: four pillars plus
the derived space-separated string. -/
structure FourPillars where
  yearly : Option String × Option String
  monthly : Option String × Option String
  daily : Option String × Option String
  timely : Option String × Option String
  fourPillarsStr : String
deriving DecidableEq

/-- `getHeavenlyStemAndEarthlyBranchByLunarDate` from the source, over the
modelled collaborators. -/
def getHeavenlyStemAndEarthlyBranchByLunarDate (c : Collaborators)
    (dateStr : String) (timeIndex : Int) (isLeap : Bool) : FourPillars :=
  let lunarYear := (c.normalizeLunarDateStr dateStr).1
  let solarDate := c.lunar2solar dateStr isLeap
  let yearly := heavenlyStemAndEarthlyBranchOfYear lunarYear
  let monthly := heavenlyStemAndEarthlyBranchOfMonth c.getTerm solarDate
  let daily := heavenlyStemAndEarthlyBranchOfDay solarDate timeIndex
  let timely := heavenlyStemAndEarthlyBranchOfTime timeIndex (stemOrUndefined daily.1)
  ⟨yearly, monthly, daily, timely,
    joinPillar yearly ++ " " ++ joinPillar monthly ++ " " ++
      joinPillar daily ++ " " ++ joinPillar timely⟩

/-- `getHeavenlyStemAndEarthlyBranchBySolarDate` from the source, over the
modelled collaborators. -/
def getHeavenlyStemAndEarthlyBranchBySolarDate (c : Collaborators)
    (dateStr : String) (timeIndex : Int) : FourPillars :=
  let solarDate := c.parseSolarDate dateStr
  let lunarYear := c.solar2lunar dateStr
  let yearly := heavenlyStemAndEarthlyBranchOfYear lunarYear
  let monthly := heavenlyStemAndEarthlyBranchOfMonth c.getTerm solarDate
  let daily := heavenlyStemAndEarthlyBranchOfDay solarDate timeIndex
  let timely := heavenlyStemAndEarthlyBranchOfTime timeIndex (stemOrUndefined daily.1)
  ⟨yearly, monthly, daily, timely,
    joinPillar yearly ++ " " ++ joinPillar monthly ++ " " ++
      joinPillar daily ++ " " ++ joinPillar timely⟩

/-- Gregorian leap-year test, for describing calendar-day succession. -/
def isLeapYear (y : Int) : Bool :=
  decide ((y % 4 = 0 ∧ y % 100 ≠ 0) ∨ y % 400 = 0)

/-- Number of days of month `m` of Gregorian year `y`. -/
def daysInMonth (y m : Int) : Int :=
  if m = 2 then (if isLeapYear y then 29 else 28)
  else if m = 4 ∨ m = 6 ∨ m = 9 ∨ m = 11 then 30
  else 31

/-- The calendar day after `(y, m, d)`. -/
def nextDay (y m d : Int) : Int × Int × Int :=
  if d < daysInMonth y m then (y, m, d + 1)
  else if m < 12 then (y, m + 1, 1)
  else (y + 1, 1, 1)

/-- A well-formed Gregorian calendar day. -/
abbrev ValidDate (y m d : Int) : Prop :=
  1 ≤ m ∧ m ≤ 12 ∧ 1 ≤ d ∧ d ≤ daysInMonth y m

theorem jsArrayGet_isSome_of_lt (l : List String) (i : Int) (h0 : 0 ≤ i)
    (h1 : i < (l.length : Int)) : (jsArrayGet l i).isSome = true := by
  unfold jsArrayGet
  rw [if_pos h0, List.get?_eq_get (by omega : i.toNat < l.length)]
  rfl

/-- Claim C1 (amended): for every nonnegative integer offset, the
offset-to-pillar conversion indexes the stem table and the branch table only
with in-range indices (stem index in [0, 9], branch index in [0, 11]) and
returns a pair of defined table entries. -/
theorem fromOffset_inRange_of_nonneg (offset : Int) (h : 0 ≤ offset) :
    0 ≤ Int.tmod offset 10 ∧ Int.tmod offset 10 ≤ 9 ∧
    0 ≤ Int.tmod offset 12 ∧ Int.tmod offset 12 ≤ 11 ∧
    (heavenlyStemAndEarthlyBranchFromOffset offset).1.isSome = true ∧
    (heavenlyStemAndEarthlyBranchFromOffset offset).2.isSome = true := by
  have h10 : Int.tmod offset 10 = offset % 10 := Int.tmod_eq_emod h (by norm_num)
  have h12 : Int.tmod offset 12 = offset % 12 := Int.tmod_eq_emod h (by norm_num)
  have hsl : ((HEAVENLY_STEMS.length : Int)) = 10 := by decide
  have hbl : ((EARTHLY_BRANCHES.length : Int)) = 12 := by decide
  refine ⟨by omega, by omega, by omega, by omega, ?_, ?_⟩
  · show (jsArrayGet HEAVENLY_STEMS (Int.tmod offset 10)).isSome = true
    exact jsArrayGet_isSome_of_lt _ _ (by omega) (by omega)
  · show (jsArrayGet EARTHLY_BRANCHES (Int.tmod offset 12)).isSome = true
    exact jsArrayGet_isSome_of_lt _ _ (by omega) (by omega)

/-- Witness for claim C1 at offset 123. -/
theorem fromOffset_inRange_witness :
    0 ≤ Int.tmod (123 : Int) 10 ∧ Int.tmod (123 : Int) 10 ≤ 9 ∧
    0 ≤ Int.tmod (123 : Int) 12 ∧ Int.tmod (123 : Int) 12 ≤ 11 ∧
    (heavenlyStemAndEarthlyBranchFromOffset 123).1.isSome = true ∧
    (heavenlyStemAndEarthlyBranchFromOffset 123).2.isSome = true :=
  fromOffset_inRange_of_nonneg 123 (by decide)

/-- Counterexample to claim C1 as stated: at the negative offset -1 the
JavaScript truncating remainder is -1, both table lookups are out of range,
and the conversion returns a pair of undefined entries. -/
theorem fromOffset_negative_counterexample :
    Int.tmod (-1 : Int) 10 = -1 ∧
    heavenlyStemAndEarthlyBranchFromOffset (-1) = (none, none) := by
  decide

/-- Claim C3 (amended): for every integer year with 3 ≤ year, the source year
pillar agrees with the 1-based remainder rule of the spec (remainders of
(year - 3) modulo 10 and modulo 12, a remainder of 0 treated as the modulus,
then 1-based selection from the stem and branch tables). -/
theorem yearPillar_matches_spec_of_ge_three (year : Int) (h : 3 ≤ year) :
    heavenlyStemAndEarthlyBranchOfYear year = specYearPillar year := by
  have h10 : Int.tmod (year - 3) 10 = (year - 3) % 10 :=
    Int.tmod_eq_emod (by omega) (by norm_num)
  have h12 : Int.tmod (year - 3) 12 = (year - 3) % 12 :=
    Int.tmod_eq_emod (by omega) (by norm_num)
  simp only [heavenlyStemAndEarthlyBranchOfYear, specYearPillar, h10, h12]

/-- Witness for claim C3 at year 1984. -/
theorem yearPillar_matches_spec_witness :
    heavenlyStemAndEarthlyBranchOfYear 1984 = specYearPillar 1984 :=
  yearPillar_matches_spec_of_ge_three 1984 (by decide)

/-- Counterexample to claim C3 as stated: at year 2 the truncating remainder
(2 - 3) % 10 is -1, the stem lookup lands at index -2 and returns undefined
instead of the table entry the 1-based remainder convention selects. -/
theorem yearPillar_year_two_counterexample :
    heavenlyStemAndEarthlyBranchOfYear 2 ≠ specYearPillar 2 ∧
    (heavenlyStemAndEarthlyBranchOfYear 2).1 = none ∧
    specYearPillar 2 = (some ("壬"), some ("戌")) := by
  decide

/-- Claim C4 (amended): for every integer year with 3 ≤ year, the year pillar
is periodic with period 60. -/
theorem yearPillar_period_sixty_of_ge_three (year : Int) (h : 3 ≤ year) :
    heavenlyStemAndEarthlyBranchOfYear year =
      heavenlyStemAndEarthlyBranchOfYear (year + 60) := by
  have e10 : Int.tmod (year + 60 - 3) 10 = Int.tmod (year - 3) 10 := by
    rw [Int.tmod_eq_emod (by omega) (by norm_num),
      Int.tmod_eq_emod (by omega) (by norm_num)]
    omega
  have e12 : Int.tmod (year + 60 - 3) 12 = Int.tmod (year - 3) 12 := by
    rw [Int.tmod_eq_emod (by omega) (by norm_num),
      Int.tmod_eq_emod (by omega) (by norm_num)]
    omega
  simp only [heavenlyStemAndEarthlyBranchOfYear, e10, e12]

/-- Witness for claim C4 at year 1984. -/
theorem yearPillar_period_sixty_witness :
    heavenlyStemAndEarthlyBranchOfYear 1984 =
      heavenlyStemAndEarthlyBranchOfYear (1984 + 60) :=
  yearPillar_period_sixty_of_ge_three 1984 (by decide)

/-- Counterexample to claim C4 as stated: at year -7 the stem key is the
remapped remainder 0 but the branch lookup is out of range, while year 53
yields two defined entries, so the pillars sixty years apart differ. -/
theorem yearPillar_period_sixty_counterexample :
    heavenlyStemAndEarthlyBranchOfYear (-7) ≠
      heavenlyStemAndEarthlyBranchOfYear (-7 + 60) := by
  decide

/-- Claim C2: for every solar date (year, month, day) and every term table,
the month pillar uses the base offset (year - 1900) * 12 + month + 11, is the
pillar of offset + 1 when the day is on or after the term boundary day
getTerm(year, month * 2 - 1) (the boundary day itself counts as advanced),
and is the pillar of the base offset otherwise. -/
theorem monthPillar_term_boundary (getTerm : Int → Int → Int)
    (year month day : Int) :
    (getTerm year (month * 2 - 1) ≤ day →
      heavenlyStemAndEarthlyBranchOfMonth getTerm ⟨year, month, day⟩ =
        heavenlyStemAndEarthlyBranchFromOffset
          ((year - 1900) * 12 + month + 11 + 1)) ∧
    (day < getTerm year (month * 2 - 1) →
      heavenlyStemAndEarthlyBranchOfMonth getTerm ⟨year, month, day⟩ =
        heavenlyStemAndEarthlyBranchFromOffset
          ((year - 1900) * 12 + month + 11)) := by
  constructor
  · intro h
    simp only [heavenlyStemAndEarthlyBranchOfMonth, normalizeSolarDateStr]
    rw [if_pos h]
  · intro h
    simp only [heavenlyStemAndEarthlyBranchOfMonth, normalizeSolarDateStr]
    rw [if_neg (by omega)]

/-- Witness for claim C2: a stubbed term table placing the boundary on day
15 of every month; 2000-06-20 is past the boundary and advances, 2000-06-10
is before it and does not. -/
theorem monthPillar_term_boundary_witness :
    heavenlyStemAndEarthlyBranchOfMonth (fun _ _ => 15) ⟨2000, 6, 20⟩ =
      heavenlyStemAndEarthlyBranchFromOffset 1218 ∧
    heavenlyStemAndEarthlyBranchOfMonth (fun _ _ => 15) ⟨2000, 6, 10⟩ =
      heavenlyStemAndEarthlyBranchFromOffset 1217 :=
  ⟨(monthPillar_term_boundary (fun _ _ => 15) 2000 6 20).1 (by decide),
   (monthPillar_term_boundary (fun _ _ => 15) 2000 6 10).2 (by decide)⟩

/-- Claim C5: for every solar date, the day pillar rule at the late-Zi
sentinel timeIndex 12 feeds an offset exactly one greater than at
timeIndex 11 into the 60-cycle conversion, so it yields the pillar of
that advanced offset. -/
theorem dayPillar_lateZi_one_ahead (date : SolarDate) :
    dayCyclicalOffset date 12 = dayCyclicalOffset date 11 + 1 ∧
    heavenlyStemAndEarthlyBranchOfDay date 12 =
      heavenlyStemAndEarthlyBranchFromOffset (dayCyclicalOffset date 11 + 1) := by
  obtain ⟨y, m, d⟩ := date
  have h : dayCyclicalOffset ⟨y, m, d⟩ 12 = dayCyclicalOffset ⟨y, m, d⟩ 11 + 1 := by
    simp only [dayCyclicalOffset, normalizeSolarDateStr]
    norm_num
  refine ⟨h, ?_⟩
  show heavenlyStemAndEarthlyBranchFromOffset (dayCyclicalOffset ⟨y, m, d⟩ 12) = _
  rw [h]

/-- Claim C10: for every solar date and any two double-hour indices in
[0, 11], the day pillar is identical: it depends on the double-hour index
only through the sentinel value 12. -/
theorem dayPillar_ignores_timeIndex (date : SolarDate) (t1 t2 : Int)
    (h1a : 0 ≤ t1) (h1b : t1 ≤ 11) (h2a : 0 ≤ t2) (h2b : t2 ≤ 11) :
    heavenlyStemAndEarthlyBranchOfDay date t1 =
      heavenlyStemAndEarthlyBranchOfDay date t2 := by
  obtain ⟨y, m, d⟩ := date
  have h : dayCyclicalOffset ⟨y, m, d⟩ t1 = dayCyclicalOffset ⟨y, m, d⟩ t2 := by
    simp only [dayCyclicalOffset, normalizeSolarDateStr]
    rw [if_neg (by omega : ¬t1 = 12), if_neg (by omega : ¬t2 = 12)]
  show heavenlyStemAndEarthlyBranchFromOffset (dayCyclicalOffset ⟨y, m, d⟩ t1) =
    heavenlyStemAndEarthlyBranchFromOffset (dayCyclicalOffset ⟨y, m, d⟩ t2)
  rw [h]

/-- Witness for claim C10 at 2023-08-01 with indices 3 and 7. -/
theorem dayPillar_ignores_timeIndex_witness :
    heavenlyStemAndEarthlyBranchOfDay ⟨2023, 8, 1⟩ 3 =
      heavenlyStemAndEarthlyBranchOfDay ⟨2023, 8, 1⟩ 7 :=
  dayPillar_ignores_timeIndex ⟨2023, 8, 1⟩ 3 7 (by decide) (by decide)
    (by decide) (by decide)

/-- Claim C6: for every double-hour index in [0, 11] and every day stem in
the stem table, the hour pillar has the stem selected by advancing the rat
rule start stem by the index reduced modulo 10 (even though the inner
fixIndex call of the source uses the default modulus 12, the outer modulo 10
reduction makes the two agree on [0, 11]), and the branch selected by the
index reduced modulo 12. -/
theorem hourPillar_stem_advance_mod_ten (timeIndex : Int) (s : String)
    (h0 : 0 ≤ timeIndex) (h1 : timeIndex ≤ 11) (_hs : s ∈ HEAVENLY_STEMS) :
    heavenlyStemAndEarthlyBranchOfTime timeIndex s =
      (jsArrayGet HEAVENLY_STEMS
        (fixIndex (jsIndexOf HEAVENLY_STEMS (RAT_RULE s) + fixIndex timeIndex 10) 10),
       jsArrayGet EARTHLY_BRANCHES (fixIndex timeIndex 12)) := by
  have key : fixIndex (jsIndexOf HEAVENLY_STEMS (RAT_RULE s) + fixIndex timeIndex 12) 10 =
      fixIndex (jsIndexOf HEAVENLY_STEMS (RAT_RULE s) + fixIndex timeIndex 10) 10 := by
    unfold fixIndex
    omega
  simp only [heavenlyStemAndEarthlyBranchOfTime, key]

/-- Witness for claim C6: day stem 甲 at double-hour index 0 (the defining
case of the rat rule). -/
theorem hourPillar_stem_advance_mod_ten_witness :
    heavenlyStemAndEarthlyBranchOfTime 0 ("甲") =
      (jsArrayGet HEAVENLY_STEMS
        (fixIndex (jsIndexOf HEAVENLY_STEMS (RAT_RULE ("甲")) + fixIndex 0 10) 10),
       jsArrayGet EARTHLY_BRANCHES (fixIndex 0 12)) :=
  hourPillar_stem_advance_mod_ten 0 ("甲") (by decide) (by decide) (by decide)

/-- Claim C9: for every day stem in the stem table, the hour rule normalizes
the late-Zi sentinel index 12 (passed through unresolved by both aggregate
entry points) to the same stem and branch as index 0, the Zi double-hour. -/
theorem hourPillar_lateZi_eq_zi (s : String) (_hs : s ∈ HEAVENLY_STEMS) :
    heavenlyStemAndEarthlyBranchOfTime 12 s =
      heavenlyStemAndEarthlyBranchOfTime 0 s := by
  simp only [heavenlyStemAndEarthlyBranchOfTime, fixIndex]
  norm_num

/-- Witness for claim C9 at day stem 庚. -/
theorem hourPillar_lateZi_eq_zi_witness :
    heavenlyStemAndEarthlyBranchOfTime 12 ("庚") =
      heavenlyStemAndEarthlyBranchOfTime 0 ("庚") :=
  hourPillar_lateZi_eq_zi ("庚") (by decide)

/-- Claim C8: whenever the lunar-date entry point and the solar-date entry
point are given strings denoting the same calendar day (the lunar-to-solar
conversion of the lunar string equals the parsed solar date, and the lunar
year extracted from the lunar string equals the lunar year obtained from the
solar string) and the same double-hour index in [0, 12], they return
identical yearly, monthly, daily and timely pillars and an identical
formatted string. -/
theorem crossEntry_consistency (c : Collaborators) (lunarStr solarStr : String)
    (timeIndex : Int) (isLeap : Bool)
    (hdate : c.lunar2solar lunarStr isLeap = c.parseSolarDate solarStr)
    (hyear : (c.normalizeLunarDateStr lunarStr).1 = c.solar2lunar solarStr)
    (_ht0 : 0 ≤ timeIndex) (_ht1 : timeIndex ≤ 12) :
    getHeavenlyStemAndEarthlyBranchByLunarDate c lunarStr timeIndex isLeap =
      getHeavenlyStemAndEarthlyBranchBySolarDate c solarStr timeIndex := by
  simp only [getHeavenlyStemAndEarthlyBranchByLunarDate,
    getHeavenlyStemAndEarthlyBranchBySolarDate, hdate, hyear]

/-- A concrete collaborator bundle for the claim C8 witness: every term
boundary on day 10, every lunar string denoting lunar year 2000 and solar
day 2000-02-05. -/
def trivialCollaborators : Collaborators :=
  ⟨fun _ _ => 10, fun _ => (2000, 1, 1), fun _ _ => ⟨2000, 2, 5⟩,
   fun _ => 2000, fun _ => ⟨2000, 2, 5⟩⟩

/-- Witness for claim C8 over the concrete collaborator bundle. -/
theorem crossEntry_consistency_witness :
    getHeavenlyStemAndEarthlyBranchByLunarDate trivialCollaborators ("a") 3 false =
      getHeavenlyStemAndEarthlyBranchBySolarDate trivialCollaborators ("b") 3 :=
  crossEntry_consistency trivialCollaborators ("a") ("b") 3 false rfl rfl
    (by decide) (by decide)

theorem daysFromCivilFirst_step_ne_two (y m : Int) (h1 : 1 ≤ m) (h2 : m ≤ 11)
    (h3 : m ≠ 2) :
    daysFromCivilFirst y (m + 1) = daysFromCivilFirst y m + daysInMonth y m := by
  interval_cases m <;>
    simp only [daysFromCivilFirst, daysInMonth, isLeapYear] <;>
    norm_num <;> omega

theorem daysFromCivilFirst_feb_step (y : Int) :
    daysFromCivilFirst y 3 = daysFromCivilFirst y 2 + daysInMonth y 2 := by
  by_cases hL : (y % 4 = 0 ∧ y % 100 ≠ 0) ∨ y % 400 = 0
  · simp only [daysFromCivilFirst, daysInMonth, isLeapYear, hL, decide_True,
      if_true, decide_eq_true_eq, if_pos hL]
    norm_num
    omega
  · simp only [daysFromCivilFirst, daysInMonth, isLeapYear, decide_eq_true_eq,
      if_neg hL]
    norm_num
    omega

theorem daysFromCivilFirst_year_step (y : Int) :
    daysFromCivilFirst (y + 1) 1 = daysFromCivilFirst y 12 + 31 := by
  simp only [daysFromCivilFirst]
  norm_num
  omega

theorem makeFullYear_succ (y : Int) (h99 : y ≠ 99) (hneg : y ≠ -1) :
    makeFullYear (y + 1) = makeFullYear y + 1 := by
  unfold makeFullYear
  split <;> split <;> omega

theorem isLeapYear_makeFullYear (y : Int) (h : y ≠ 0) :
    isLeapYear (makeFullYear y) = isLeapYear y := by
  unfold makeFullYear
  split
  · simp only [isLeapYear, decide_eq_decide]
    omega
  · rfl

theorem utcEpochDays_eq_of_lt_twelve (y mi : Int) (h0 : 0 ≤ mi) (h1 : mi ≤ 11) :
    utcEpochDays y mi = daysFromCivilFirst (makeFullYear y) (mi + 1) := by
  have hd : mi / 12 = 0 := by omega
  have hm : mi % 12 = mi := by omega
  simp only [utcEpochDays, hd, hm, add_zero]

theorem daysInMonth_congr_ne_two (a b m : Int) (h : m ≠ 2) :
    daysInMonth a m = daysInMonth b m := by
  unfold daysInMonth
  rw [if_neg h, if_neg h]

/-- Claim C7 (amended): for every valid calendar day and the same double-hour
index in [0, 11], the epoch-day offset of the next calendar day is exactly
one greater than that of the day itself — except on the three days where the
ECMAScript two-digit-year rule of Date.UTC changes the underlying year
arithmetic, namely December 31 of year 99, December 31 of year -1, and
February 29 of year 0. -/
theorem consecutiveDay_offset_succ (y m d t : Int) (hv : ValidDate y m d)
    (ht0 : 0 ≤ t) (ht1 : t ≤ 11)
    (hex1 : ¬(y = 99 ∧ m = 12 ∧ d = 31))
    (hex2 : ¬(y = -1 ∧ m = 12 ∧ d = 31))
    (hex3 : ¬(y = 0 ∧ m = 2 ∧ d = 29)) :
    dayCyclicalOffset
        ⟨(nextDay y m d).1, (nextDay y m d).2.1, (nextDay y m d).2.2⟩ t =
      dayCyclicalOffset ⟨y, m, d⟩ t + 1 := by
  obtain ⟨hm1, hm12, hd1, hd2⟩ := hv
  have hfix : (if t = 12 then (1 : Int) else 0) = 0 := if_neg (by omega)
  by_cases hlt : d < daysInMonth y m
  · have hn : nextDay y m d = (y, m, d + 1) := by
      unfold nextDay
      rw [if_pos hlt]
    rw [hn]
    simp only [dayCyclicalOffset, normalizeSolarDateStr, hfix]
    omega
  · have hdm : d = daysInMonth y m := by omega
    by_cases hm : m < 12
    · have hn : nextDay y m d = (y, m + 1, 1) := by
        unfold nextDay
        rw [if_neg hlt, if_pos hm]
      rw [hn]
      simp only [dayCyclicalOffset, normalizeSolarDateStr, hfix]
      have hu1 : utcEpochDays y (m + 1 - 1) =
          daysFromCivilFirst (makeFullYear y) (m + 1) := by
        have := utcEpochDays_eq_of_lt_twelve y (m + 1 - 1) (by omega) (by omega)
        rw [this, show m + 1 - 1 + 1 = m + 1 by ring]
      have hu2 : utcEpochDays y (m - 1) =
          daysFromCivilFirst (makeFullYear y) m := by
        have := utcEpochDays_eq_of_lt_twelve y (m - 1) (by omega) (by omega)
        rw [this, show m - 1 + 1 = m by ring]
      by_cases hm2 : m = 2
      · subst hm2
        have hy0 : y ≠ 0 := by
          intro hy0
          subst hy0
          have h29 : daysInMonth 0 2 = 29 := by decide
          exact hex3 ⟨rfl, rfl, by omega⟩
        have hstep := daysFromCivilFirst_feb_step (makeFullYear y)
        have hdim : daysInMonth (makeFullYear y) 2 = daysInMonth y 2 := by
          unfold daysInMonth
          rw [isLeapYear_makeFullYear y hy0]
        rw [hdim] at hstep
        norm_num at hu1 hu2 ⊢
        omega
      · have hstep := daysFromCivilFirst_step_ne_two (makeFullYear y) m
          (by omega) (by omega) hm2
        have hdim : daysInMonth (makeFullYear y) m = daysInMonth y m :=
          daysInMonth_congr_ne_two _ _ m hm2
        rw [hdim] at hstep
        omega
    · have hm' : m = 12 := by omega
      subst hm'
      have hd31 : d = 31 := by
        have : daysInMonth y 12 = 31 := by
          unfold daysInMonth
          norm_num
        omega
      have hy99 : y ≠ 99 := by
        intro hy
        exact hex1 ⟨hy, rfl, hd31⟩
      have hyneg : y ≠ -1 := by
        intro hy
        exact hex2 ⟨hy, rfl, hd31⟩
      have hn : nextDay y 12 d = (y + 1, 1, 1) := by
        unfold nextDay
        rw [if_neg hlt, if_neg (by omega)]
      rw [hn]
      simp only [dayCyclicalOffset, normalizeSolarDateStr, hfix]
      have hu1 : utcEpochDays (y + 1) (1 - 1) =
          daysFromCivilFirst (makeFullYear y + 1) 1 := by
        have := utcEpochDays_eq_of_lt_twelve (y + 1) (1 - 1) (by omega) (by omega)
        rw [this, makeFullYear_succ y hy99 hyneg]
        norm_num
      have hu2 : utcEpochDays y (12 - 1) =
          daysFromCivilFirst (makeFullYear y) 12 := by
        have := utcEpochDays_eq_of_lt_twelve y (12 - 1) (by omega) (by omega)
        rw [this]
        norm_num
      have hstep := daysFromCivilFirst_year_step (makeFullYear y)
      omega

/-- Witness for claim C7: 2023-08-31 followed by 2023-09-01 at double-hour
index 5. -/
theorem consecutiveDay_offset_succ_witness :
    dayCyclicalOffset
        ⟨(nextDay 2023 8 31).1, (nextDay 2023 8 31).2.1, (nextDay 2023 8 31).2.2⟩ 5 =
      dayCyclicalOffset ⟨2023, 8, 31⟩ 5 + 1 :=
  consecutiveDay_offset_succ 2023 8 31 5 (by decide) (by decide) (by decide)
    (by decide) (by decide) (by decide)

/-- Counterexample to claim C7 as stated: December 31 of year 99 is a valid
calendar day whose successor is January 1 of year 100, yet the epoch-day
offset jumps backwards, because Date.UTC reads year 99 as 1999 and year 100
as itself. -/
theorem consecutiveDay_year99_counterexample :
    ValidDate 99 12 31 ∧ nextDay 99 12 31 = (100, 1, 1) ∧
    dayCyclicalOffset ⟨100, 1, 1⟩ 0 ≠ dayCyclicalOffset ⟨99, 12, 31⟩ 0 + 1 := by
  decide
